import Mathlib

/-!
Shallow embedding of the client-side session and ingestion orchestration layer of
a browser console for "contexts" (knowledge bases).  The definitions below are
translated from the React/TypeScript sources:

  * `src/frontend/src/pages/Upload.tsx`       — sequential file-batch upload,
    upload-progress state, tag edit buffer for list-valued prompt variables;
  * `src/frontend/src/components/Navigation.tsx` (the `Chat` component) —
    multi-mode query dispatch and result-tab state;
  * `src/frontend/src/components/Layout.tsx` (the `ContextSelector` component) —
    context create/delete session state;
  * `src/frontend/src/pages/Visualize.tsx`    — graph fetch/regenerate flow and
    the object-URL resource lifecycle.

Network responses are modelled as explicit inputs (the parsed JSON the remote
API would return, or a transport-error marker), and each event handler becomes a
pure function from the component state and the response to the next state plus
its observable effects (requests issued, progress updates, console logs).
-/

/-! ## Upload page: sequential file-batch upload (`handleFileUpload`) -/

/-- A file handle as it appears to the upload loop: only its `name` is consulted. -/
structure FileItem where
  name : String
  deriving DecidableEq

/-- The parsed JSON result of one `POST /insert_file` round trip:
`ok` is `response.ok`, `detail` is the `detail` field of the parsed body
(consulted only on failure, as in `data.detail`). -/
structure FetchResponse where
  ok : Bool
  detail : String
  deriving DecidableEq

/-- The `UploadProgress` state of `Upload.tsx`:
`{ total: number; completed: number; currentFile: string }`. -/
structure UploadProgress where
  total : Nat
  completed : Nat
  currentFile : String
  deriving DecidableEq

/-- Observable events emitted by the upload loop, in order:
`setProgress` is a `setUploadProgress` call, `request` is the issue of the
`POST /insert_file` request for the named file. -/
inductive UploadEvent where
  | setProgress (p : UploadProgress)
  | request (fileName : String)
  deriving DecidableEq

/-- Outcome of one `handleFileUpload` invocation: the ordered event trace, the
final `message` / `isError` banner state, whether `setFiles(null)` ran, and the
`uploadProgress` state after the `finally` block (always cleared there). -/
structure UploadOutcome where
  events : List UploadEvent
  message : String
  isError : Bool
  filesCleared : Bool
  finalProgress : Option UploadProgress
  deriving DecidableEq

/-- The `for` loop of `handleFileUpload` (Upload.tsx lines 174-194): for each
file, set progress `{total, completed: i, currentFile: file.name}`, issue the
request, and on a non-ok response throw
\x60Failed to upload ${file.name}: ${data.detail}\x60, aborting the loop.
Returns the emitted events and the thrown error message, if any. -/
def runBatch (total : Nat) : Nat → List (FileItem × FetchResponse) → List UploadEvent × Option String
  | _, [] => ([], none)
  | i, (f, r) :: rest =>
    if r.ok then
      let tail := runBatch total (i + 1) rest
      (UploadEvent.setProgress ⟨total, i, f.name⟩ :: UploadEvent.request f.name :: tail.1, tail.2)
    else
      ([UploadEvent.setProgress ⟨total, i, f.name⟩, UploadEvent.request f.name],
        some ("Failed to upload " ++ f.name ++ ": " ++ r.detail))

/-- Name of the first file of the batch (`files[0].name`; the caller guards
non-emptiness). -/
def firstName : List (FileItem × FetchResponse) → String
  | [] => ""
  | (f, _) :: _ => f.name

/-- `handleFileUpload` (Upload.tsx lines 164-206).  The input pairs each chosen
file with the response the backend would give to its upload.  The guard
`if (!files || files.length === 0 || !selectedContext) return` is the empty
case; otherwise the initial progress `{total, completed: 0, currentFile:
files[0].name}` is set, the loop runs, and the `try/catch/finally` determines
the banner message, whether the file selection is cleared, and clears the
progress state (`setUploadProgress(null)` in `finally`). -/
def handleFileUpload (files : List (FileItem × FetchResponse)) : UploadOutcome :=
  if files = [] then ⟨[], "", false, false, none⟩
  else
    match runBatch files.length 0 files with
    | (evs, none) =>
        ⟨UploadEvent.setProgress ⟨files.length, 0, firstName files⟩ :: evs,
          "Successfully uploaded " ++ toString files.length ++ " files",
          false, true, none⟩
    | (evs, some m) =>
        ⟨UploadEvent.setProgress ⟨files.length, 0, firstName files⟩ :: evs,
          m, true, false, none⟩

/-- The file names whose requests were actually issued, in order. -/
def requestsOf (evs : List UploadEvent) : List String :=
  evs.filterMap fun e =>
    match e with
    | UploadEvent.request n => some n
    | UploadEvent.setProgress _ => none

/-- Pair each `request` event with the progress state in force at the moment it
is issued (the latest preceding `setProgress`, if any). -/
def requestsWithProgress : Option UploadProgress → List UploadEvent → List (Option UploadProgress × String)
  | _, [] => []
  | _, UploadEvent.setProgress p :: rest => requestsWithProgress (some p) rest
  | cur, UploadEvent.request n :: rest => (cur, n) :: requestsWithProgress cur rest

/-- The prefix of the batch that is actually attempted: every file up to and
including the first one whose response is not ok. -/
def takeUntilFail : List (FileItem × FetchResponse) → List (FileItem × FetchResponse)
  | [] => []
  | (f, r) :: rest => if r.ok then (f, r) :: takeUntilFail rest else [(f, r)]

/-- The (setProgress, request) event pairs the loop emits for a run of files
starting at index `i`. -/
def pairsOf (total : Nat) : Nat → List (FileItem × FetchResponse) → List UploadEvent
  | _, [] => []
  | i, (f, _) :: rest =>
    UploadEvent.setProgress ⟨total, i, f.name⟩ :: UploadEvent.request f.name ::
      pairsOf total (i + 1) rest

/-! ## Upload page: tag edit buffer (`handleAddTag`, tag removal) -/

/-- JS `String.prototype.trim()`: remove leading and trailing whitespace.
Implemented structurally over the character list so that it evaluates inside
the kernel. -/
def jsTrim (s : String) : String :=
  String.mk (((s.toList.dropWhile Char.isWhitespace).reverse.dropWhile
    Char.isWhitespace).reverse)

/-- `handleAddTag` (Upload.tsx lines 227-232):
`if (newTag.trim() && !tags.includes(newTag.trim())) setTags([...tags, newTag.trim()])`.
JS string truthiness makes the first conjunct "trimmed text non-empty". -/
def handleAddTag (tags : List String) (newTag : String) : List String :=
  if jsTrim newTag ≠ "" ∧ ¬ tags.contains (jsTrim newTag) then tags ++ [jsTrim newTag]
  else tags

/-- The tag-chip close button (Upload.tsx line 288):
`setTags(tags.filter((_, i) => i !== index))` — removal by position via the
index-aware `filter`. -/
def removeTagAt (tags : List String) (index : Nat) : List String :=
  ((tags.enumFrom 0).filter fun e => e.1 ≠ index).map Prod.snd

/-! ## Lemmas about the upload loop -/

/-- The loop stops at the first non-ok response: the emitted events are exactly
the (setProgress, request) pairs of the ok prefix plus the failing file, and the
thrown message names the failing file and its backend detail. -/
lemma runBatch_first_fail (total : Nat) (pre post : List (FileItem × FetchResponse))
    (f : FileItem) (r : FetchResponse)
    (hpre : ∀ p ∈ pre, p.2.ok = true) (hf : r.ok = false) :
    ∀ i, runBatch total i (pre ++ (f, r) :: post)
      = (pairsOf total i (pre ++ [(f, r)]),
         some ("Failed to upload " ++ f.name ++ ": " ++ r.detail)) := by
  induction pre with
  | nil => intro i; simp [runBatch, pairsOf, hf]
  | cons p pre ih =>
    intro i
    obtain ⟨g, s⟩ := p
    have hok : s.ok = true := hpre (g, s) (List.mem_cons_self _ _)
    have h2 : ∀ q ∈ pre, q.2.ok = true := fun q hq => hpre q (List.mem_cons_of_mem _ hq)
    simp [runBatch, pairsOf, hok, ih h2 (i + 1)]

/-- A fully ok batch emits all pairs and throws nothing. -/
lemma runBatch_all_ok (total : Nat) (l : List (FileItem × FetchResponse))
    (hl : ∀ p ∈ l, p.2.ok = true) :
    ∀ i, runBatch total i l = (pairsOf total i l, none) := by
  induction l with
  | nil => intro i; simp [runBatch, pairsOf]
  | cons p l ih =>
    intro i
    obtain ⟨g, s⟩ := p
    have hok : s.ok = true := hl (g, s) (List.mem_cons_self _ _)
    have h2 : ∀ q ∈ l, q.2.ok = true := fun q hq => hl q (List.mem_cons_of_mem _ hq)
    simp [runBatch, pairsOf, hok, ih h2 (i + 1)]

/-- The events of a run are the pairs of the attempted prefix. -/
lemma runBatch_fst (total : Nat) (l : List (FileItem × FetchResponse)) :
    ∀ i, (runBatch total i l).1 = pairsOf total i (takeUntilFail l) := by
  induction l with
  | nil => intro i; simp [runBatch, takeUntilFail, pairsOf]
  | cons p l ih =>
    intro i
    obtain ⟨g, s⟩ := p
    by_cases hok : s.ok = true
    · simp [runBatch, takeUntilFail, pairsOf, hok, ih (i + 1)]
    · simp at hok
      simp [runBatch, takeUntilFail, pairsOf, hok]

/-- The requests issued by a run of pairs are the file names, in order. -/
lemma requestsOf_pairsOf (total : Nat) (l : List (FileItem × FetchResponse)) :
    ∀ i, requestsOf (pairsOf total i l) = l.map fun p => p.1.name := by
  induction l with
  | nil => intro i; simp [pairsOf, requestsOf]
  | cons p l ih =>
    intro i
    obtain ⟨g, s⟩ := p
    simp [pairsOf, requestsOf] at ih ⊢
    exact ih (i + 1)

/-- Each request in a run of pairs is sent with the progress state recording the
position and name of exactly that file. -/
lemma requestsWithProgress_pairsOf (total : Nat) (l : List (FileItem × FetchResponse)) :
    ∀ i cur j, (requestsWithProgress cur (pairsOf total i l)).get? j
      = (l.get? j).map fun p => (some (⟨total, i + j, p.1.name⟩ : UploadProgress), p.1.name) := by
  induction l with
  | nil => intro i cur j; simp [pairsOf, requestsWithProgress]
  | cons p l ih =>
    intro i cur j
    obtain ⟨g, s⟩ := p
    match j with
    | 0 => simp [pairsOf, requestsWithProgress]
    | j + 1 =>
      simp only [pairsOf, requestsWithProgress, List.get?_cons_succ, List.get?]
      rw [ih (i + 1) _ j]
      simp only [Nat.add_assoc, Nat.add_comm 1 j]

/-- The attempted prefix agrees with the input batch position by position. -/
lemma takeUntilFail_get? (l : List (FileItem × FetchResponse)) :
    ∀ j x, (takeUntilFail l).get? j = some x → l.get? j = some x := by
  induction l with
  | nil => intro j x h; simp [takeUntilFail] at h
  | cons p l ih =>
    intro j x h
    obtain ⟨g, s⟩ := p
    by_cases hok : s.ok = true
    · simp only [takeUntilFail, hok, if_pos] at h
      match j with
      | 0 => simpa using h
      | j + 1 => simpa using ih j x (by simpa using h)
    · simp only [takeUntilFail, hok] at h
      match j with
      | 0 => simpa using h
      | j + 1 => simp at h

/-- Events of a nonempty batch: the initial progress update, then one
(setProgress, request) pair per attempted file. -/
lemma handleFileUpload_events (files : List (FileItem × FetchResponse)) (hne : files ≠ []) :
    (handleFileUpload files).events
      = UploadEvent.setProgress ⟨files.length, 0, firstName files⟩ ::
          pairsOf files.length 0 (takeUntilFail files) := by
  unfold handleFileUpload
  rw [if_neg hne]
  rcases hrb : runBatch files.length 0 files with ⟨evs, err⟩
  have hfst := runBatch_fst files.length files 0
  rw [hrb] at hfst
  cases err <;> simp [← hfst]

/-- The `finally` block always clears the progress state. -/
lemma handleFileUpload_finalProgress (files : List (FileItem × FetchResponse)) :
    (handleFileUpload files).finalProgress = none := by
  unfold handleFileUpload
  by_cases h : files = []
  · simp [h]
  · rw [if_neg h]
    rcases runBatch files.length 0 files with ⟨evs, err⟩
    cases err <;> rfl

/-- Test fixtures: an upload that succeeds, one that fails, one after the failure. -/
def sampleOk : FileItem × FetchResponse := (⟨"a.txt"⟩, ⟨true, ""⟩)

/-- A file whose upload fails with backend detail `"boom"`. -/
def sampleBad : FileItem × FetchResponse := (⟨"b.pdf"⟩, ⟨false, "boom"⟩)

/-- A file after the failing one, which must never be attempted. -/
def sampleAfter : FileItem × FetchResponse := (⟨"c.doc"⟩, ⟨true, ""⟩)

/-- C2: for a non-empty batch whose first failing upload is file k, exactly the
requests for files 1..k are issued in input order, files after k are never
attempted, and the reported error names file k and carries the backend detail. -/
theorem uploadFiles_abort_semantics (pre post : List (FileItem × FetchResponse))
    (f : FileItem) (r : FetchResponse)
    (hpre : ∀ p ∈ pre, p.2.ok = true) (hf : r.ok = false) :
    requestsOf (handleFileUpload (pre ++ (f, r) :: post)).events
        = (pre.map fun p => p.1.name) ++ [f.name]
    ∧ (handleFileUpload (pre ++ (f, r) :: post)).message
        = "Failed to upload " ++ f.name ++ ": " ++ r.detail
    ∧ (handleFileUpload (pre ++ (f, r) :: post)).isError = true := by
  have hne : pre ++ (f, r) :: post ≠ [] := by simp
  have hrb := runBatch_first_fail (pre ++ (f, r) :: post).length pre post f r hpre hf 0
  unfold handleFileUpload
  rw [if_neg hne, hrb]
  refine ⟨?_, rfl, rfl⟩
  show requestsOf (UploadEvent.setProgress _ :: pairsOf _ 0 (pre ++ [(f, r)])) = _
  rw [show ∀ q l, requestsOf (UploadEvent.setProgress q :: l) = requestsOf l from
      fun q l => by simp [requestsOf]]
  rw [requestsOf_pairsOf _ _ 0, List.map_append]
  rfl

/-- Closed witness for C2 on a concrete three-file batch failing at the second file. -/
theorem uploadFiles_abort_semantics_witness :
    (∀ p ∈ [sampleOk], p.2.ok = true) ∧ sampleBad.2.ok = false
    ∧ (requestsOf (handleFileUpload ([sampleOk] ++ sampleBad :: [sampleAfter])).events
          = ([sampleOk].map fun p => p.1.name) ++ [sampleBad.1.name]
      ∧ (handleFileUpload ([sampleOk] ++ sampleBad :: [sampleAfter])).message
          = "Failed to upload " ++ sampleBad.1.name ++ ": " ++ sampleBad.2.detail
      ∧ (handleFileUpload ([sampleOk] ++ sampleBad :: [sampleAfter])).isError = true) :=
  ⟨by decide, by decide,
    uploadFiles_abort_semantics [sampleOk] [sampleAfter] sampleBad.1 sampleBad.2
      (by decide) (by decide)⟩

/-- C3: whenever the j-th request (0-indexed) of a batch is sent, the progress
state at that moment records `completed = j` (i.e. `(j+1)-1` in the claim's
1-indexing) and the name of exactly the j-th file; and in every terminal case
the progress state is cleared back to "not uploading". -/
theorem upload_progress_invariant (files : List (FileItem × FetchResponse)) (j : Nat)
    (p : Option UploadProgress) (n : String)
    (h : (requestsWithProgress none (handleFileUpload files).events).get? j = some (p, n)) :
    (∃ item resp, files.get? j = some (item, resp)
        ∧ p = some ⟨files.length, j, item.name⟩ ∧ n = item.name)
    ∧ (handleFileUpload files).finalProgress = none := by
  refine ⟨?_, handleFileUpload_finalProgress files⟩
  have hne : files ≠ [] := by
    rintro rfl
    simp [handleFileUpload, requestsWithProgress] at h
  rw [handleFileUpload_events files hne] at h
  simp only [requestsWithProgress] at h
  rw [requestsWithProgress_pairsOf files.length (takeUntilFail files) 0 _ j] at h
  rcases hg : (takeUntilFail files).get? j with _ | ⟨item, resp⟩
  · rw [hg] at h; simp at h
  · rw [hg] at h
    simp only [Option.map_some', Option.some.injEq, Prod.mk.injEq] at h
    refine ⟨item, resp, takeUntilFail_get? files j (item, resp) hg, ?_, h.2.symm⟩
    rw [← h.1]
    simp

/-- Closed witness for C3: in a two-file batch failing at the second file, the
second request goes out with progress `{total := 2, completed := 1,
currentFile := "b.pdf"}`. -/
theorem upload_progress_invariant_witness :
    (requestsWithProgress none (handleFileUpload [sampleOk, sampleBad]).events).get? 1
        = some (some ⟨2, 1, "b.pdf"⟩, "b.pdf")
    ∧ ((∃ item resp,
          ([sampleOk, sampleBad] : List (FileItem × FetchResponse)).get? 1 = some (item, resp)
          ∧ (some (⟨2, 1, "b.pdf"⟩ : UploadProgress) : Option UploadProgress)
              = some ⟨[sampleOk, sampleBad].length, 1, item.name⟩
          ∧ "b.pdf" = item.name)
      ∧ (handleFileUpload [sampleOk, sampleBad]).finalProgress = none) :=
  ⟨by decide,
    upload_progress_invariant [sampleOk, sampleBad] 1 (some ⟨2, 1, "b.pdf"⟩) "b.pdf" (by decide)⟩

/-! ## Lemmas about the tag edit buffer -/

/-- Filtering an enumeration on "position differs from `idx`" and projecting the
elements back out erases exactly the element at offset `idx - n`, when there is
one; otherwise it is the identity. -/
lemma removeTag_enumFrom (idx : Nat) (l : List String) :
    ∀ n, ((l.enumFrom n).filter fun e => e.1 ≠ idx).map Prod.snd
      = if n ≤ idx ∧ idx - n < l.length then l.eraseIdx (idx - n) else l := by
  induction l with
  | nil => intro n; simp
  | cons a l ih =>
    intro n
    rw [show List.enumFrom n (a :: l) = (n, a) :: List.enumFrom (n + 1) l from rfl,
      List.filter_cons]
    by_cases h : n = idx
    · subst h
      have h1 : ¬ (n + 1 ≤ n ∧ n - (n + 1) < l.length) := by omega
      have h2 : n ≤ n ∧ n - n < (a :: l).length := by
        simp only [List.length_cons]; omega
      rw [if_neg (by simp), ih (n + 1), if_neg h1, if_pos h2]
      simp
    · rw [if_pos (by simp [h]), List.map_cons, ih (n + 1)]
      by_cases h2 : n + 1 ≤ idx ∧ idx - (n + 1) < l.length
      · have h3 : n ≤ idx ∧ idx - n < (a :: l).length := by
          simp only [List.length_cons]; omega
        have h4 : idx - n = (idx - (n + 1)) + 1 := by omega
        rw [if_pos h2, if_pos h3, h4, List.eraseIdx_cons_succ]
      · have h3 : ¬ (n ≤ idx ∧ idx - n < (a :: l).length) := by
          simp only [List.length_cons]; omega
        rw [if_neg h2, if_neg h3]

/-- The index-aware filter of the tag-chip close button is exactly positional
removal: it erases the element at `index` and is the identity out of range. -/
lemma removeTagAt_eq_eraseIdx (tags : List String) (idx : Nat) :
    removeTagAt tags idx = tags.eraseIdx idx := by
  unfold removeTagAt
  rw [removeTag_enumFrom idx tags 0]
  by_cases h : idx < tags.length
  · rw [if_pos (by omega), Nat.sub_zero]
  · rw [if_neg (by omega)]
    exact (List.eraseIdx_eq_self.mpr (by omega)).symm

/-- Membership form of the add guard: `tags.includes` is exact (case-sensitive)
membership. -/
lemma handleAddTag_eq (tags : List String) (t : String) :
    handleAddTag tags t
      = if jsTrim t ≠ "" ∧ jsTrim t ∉ tags then tags ++ [jsTrim t] else tags := by
  unfold handleAddTag
  by_cases h1 : jsTrim t = ""
  · simp [h1]
  · by_cases h2 : jsTrim t ∈ tags <;> simp [h1, h2, List.contains]

/-- C7: tag edit-buffer algebra.  `handleAddTag` trims its input and is a no-op
when the trimmed text is empty or already present (case-sensitive exact match),
otherwise appends it at the end; adding the same text twice is the same as
adding it once; removal is positional, is a no-op out of range, and the buffer
stays duplicate-free with every entry it did not start with being a non-empty
trimmed string. -/
theorem tag_edit_algebra (tags : List String) (t : String) (idx : Nat)
    (hnd : tags.Nodup) (hidx : tags.length ≤ idx) :
    (jsTrim t = "" → handleAddTag tags t = tags)
    ∧ (jsTrim t ∈ tags → handleAddTag tags t = tags)
    ∧ (jsTrim t ≠ "" → jsTrim t ∉ tags → handleAddTag tags t = tags ++ [jsTrim t])
    ∧ handleAddTag (handleAddTag tags t) t = handleAddTag tags t
    ∧ removeTagAt tags idx = tags
    ∧ (∀ j, removeTagAt tags j = tags.eraseIdx j)
    ∧ (handleAddTag tags t).Nodup
    ∧ (∀ j, (removeTagAt tags j).Nodup)
    ∧ (∀ x ∈ handleAddTag tags t, x ∈ tags ∨ (x = jsTrim t ∧ jsTrim t ≠ ""))
    ∧ (∀ j, ∀ x ∈ removeTagAt tags j, x ∈ tags) := by
  refine ⟨fun h => by rw [handleAddTag_eq]; simp [h],
    fun h => by rw [handleAddTag_eq]; simp [h],
    fun h1 h2 => by rw [handleAddTag_eq, if_pos ⟨h1, h2⟩],
    ?_, ?_, removeTagAt_eq_eraseIdx tags, ?_, ?_, ?_, ?_⟩
  · by_cases hc : jsTrim t ≠ "" ∧ jsTrim t ∉ tags
    · rw [handleAddTag_eq tags t, if_pos hc, handleAddTag_eq, if_neg (by simp)]
    · rw [handleAddTag_eq tags t, if_neg hc, handleAddTag_eq, if_neg hc]
  · rw [removeTagAt_eq_eraseIdx, List.eraseIdx_eq_self.mpr hidx]
  · rw [handleAddTag_eq]
    by_cases hc : jsTrim t ≠ "" ∧ jsTrim t ∉ tags
    · rw [if_pos hc]
      simp [List.nodup_append, hnd, hc.2]
    · rw [if_neg hc]; exact hnd
  · intro j
    rw [removeTagAt_eq_eraseIdx]
    exact hnd.sublist (List.eraseIdx_sublist tags j)
  · intro x hx
    rw [handleAddTag_eq] at hx
    by_cases hc : jsTrim t ≠ "" ∧ jsTrim t ∉ tags
    · rw [if_pos hc] at hx
      rcases List.mem_append.mp hx with h | h
      · exact Or.inl h
      · exact Or.inr ⟨List.mem_singleton.mp h, hc.1⟩
    · rw [if_neg hc] at hx; exact Or.inl hx
  · intro j x hx
    rw [removeTagAt_eq_eraseIdx] at hx
    exact List.mem_of_mem_eraseIdx hx

/-- Closed witness for C7 at `tags = ["alpha", "beta"]`, `t = " beta "`,
`idx = 5`. -/
theorem tag_edit_algebra_witness :
    (["alpha", "beta"] : List String).Nodup
    ∧ (["alpha", "beta"] : List String).length ≤ 5
    ∧ ((jsTrim " beta " = "" → handleAddTag ["alpha", "beta"] " beta " = ["alpha", "beta"])
      ∧ (jsTrim " beta " ∈ ["alpha", "beta"] →
          handleAddTag ["alpha", "beta"] " beta " = ["alpha", "beta"])
      ∧ (jsTrim " beta " ≠ "" → jsTrim " beta " ∉ ["alpha", "beta"] →
          handleAddTag ["alpha", "beta"] " beta " = ["alpha", "beta"] ++ [jsTrim " beta "])
      ∧ handleAddTag (handleAddTag ["alpha", "beta"] " beta ") " beta "
          = handleAddTag ["alpha", "beta"] " beta "
      ∧ removeTagAt ["alpha", "beta"] 5 = ["alpha", "beta"]
      ∧ (∀ j, removeTagAt ["alpha", "beta"] j = (["alpha", "beta"] : List String).eraseIdx j)
      ∧ (handleAddTag ["alpha", "beta"] " beta ").Nodup
      ∧ (∀ j, (removeTagAt ["alpha", "beta"] j).Nodup)
      ∧ (∀ x ∈ handleAddTag ["alpha", "beta"] " beta ",
          x ∈ ["alpha", "beta"] ∨ (x = jsTrim " beta " ∧ jsTrim " beta " ≠ ""))
      ∧ (∀ j, ∀ x ∈ removeTagAt ["alpha", "beta"] j, x ∈ ["alpha", "beta"])) :=
  ⟨by decide, by decide, tag_edit_algebra ["alpha", "beta"] " beta " 5 (by decide) (by decide)⟩

/-! ## Chat component: multi-mode query dispatch (`handleSubmit`, Navigation.tsx) -/

/-- The `QueryResponse` interface of the Chat component:
`{ naive: string; local: string; global_: string; hybrid: string }`. -/
structure QueryResponse where
  naive : String
  «local» : String
  global_ : String
  hybrid : String
  deriving DecidableEq

/-- What one `POST /query` round trip can produce: a thrown transport error
(carrying the exception's message when it is an `Error` instance), or a parsed
JSON body `{status, data, message}`. -/
inductive SubmitResult where
  | transportError (msg : Option String)
  | response (status : String) (data : QueryResponse) (message : Option String)
  deriving DecidableEq

/-- JS `x || fallback` on an optional string: the fallback replaces both an
absent and an empty string. -/
def jsOr (s : Option String) (fallback : String) : String :=
  match s with
  | none => fallback
  | some m => if m = "" then fallback else m

/-- Local state of the `Chat` component (Navigation.tsx lines 342-347). -/
structure ChatState where
  query : String
  responses : Option QueryResponse
  loading : Bool
  error : Option String
  selectedTab : String
  selectedContext : Option String
  deriving DecidableEq

/-- The `useState` initial values of `Chat`: empty query, no responses, not
loading, no error, tab `"hybrid"`, no context. -/
def chatInit : ChatState :=
  { query := "", responses := none, loading := false, error := none,
    selectedTab := "hybrid", selectedContext := none }

/-- `handleSubmit` (Navigation.tsx lines 376-398): guard on blank query or no
context; otherwise `setLoading(true); setError(null)`, one request, and either
`setResponses(data.data)` on `status === 'success'`, or a thrown error whose
message is `data.message || 'Failed to get response'` (generic text when the
thrown value is not an `Error`), with `setResponses(null)` in the catch. -/
def handleSubmit (st : ChatState) (result : SubmitResult) : ChatState :=
  if jsTrim st.query = "" ∨ st.selectedContext = none then st
  else
    match result with
    | SubmitResult.response status data message =>
      if status = "success" then
        { st with loading := false, error := none, responses := some data }
      else
        { st with loading := false
                  error := some (jsOr message "Failed to get response")
                  responses := none }
    | SubmitResult.transportError msg =>
      { st with loading := false
                error := some (jsOr msg "An error occurred while processing your request")
                responses := none }

/-- Reading the stored result for a tab id, as the render `responses[tab.id]`
does for the four tab ids of `tabDefinitions`. -/
def queryField (r : QueryResponse) : String → Option String
  | "naive" => some r.naive
  | "local" => some r.«local»
  | "global_" => some r.global_
  | "hybrid" => some r.hybrid
  | _ => none

/-- The content of the currently visible result tab, when results are shown. -/
def displayedContent (st : ChatState) : Option String :=
  st.responses.bind fun r => queryField r st.selectedTab

/-- A Chat state ready to submit: non-blank query and a selected context. -/
def chatReady : ChatState :=
  { chatInit with query := "why?", selectedContext := some "ctx-1" }

/-- C5: a submit whose response carries a non-success status (or whose
transport fails) raises the backend message (generic fallback if absent),
populates no result field, and clears the previously displayed results. -/
theorem query_failure_atomicity (st : ChatState) (status : String) (data : QueryResponse)
    (message : Option String) (msg : Option String)
    (hq : jsTrim st.query ≠ "") (hc : st.selectedContext ≠ none) (hs : status ≠ "success") :
    ((handleSubmit st (SubmitResult.response status data message)).responses = none
      ∧ (handleSubmit st (SubmitResult.response status data message)).error
          = some (jsOr message "Failed to get response"))
    ∧ ((handleSubmit st (SubmitResult.transportError msg)).responses = none
      ∧ (handleSubmit st (SubmitResult.transportError msg)).error
          = some (jsOr msg "An error occurred while processing your request")) := by
  unfold handleSubmit
  rw [if_neg (by simp [hq, hc]), if_neg (by simp [hq, hc])]
  simp [hs]

/-- Closed witness for C5: a prior result is cleared by a failing submit. -/
theorem query_failure_atomicity_witness :
    jsTrim ({ chatReady with responses := some ⟨"n", "l", "g", "h"⟩ } : ChatState).query ≠ ""
    ∧ ({ chatReady with responses := some ⟨"n", "l", "g", "h"⟩ } : ChatState).selectedContext ≠ none
    ∧ ("error" : String) ≠ "success"
    ∧ (((handleSubmit { chatReady with responses := some ⟨"n", "l", "g", "h"⟩ }
            (SubmitResult.response "error" ⟨"", "", "", ""⟩ (some "bad"))).responses = none
        ∧ (handleSubmit { chatReady with responses := some ⟨"n", "l", "g", "h"⟩ }
            (SubmitResult.response "error" ⟨"", "", "", ""⟩ (some "bad"))).error
            = some (jsOr (some "bad") "Failed to get response"))
      ∧ ((handleSubmit { chatReady with responses := some ⟨"n", "l", "g", "h"⟩ }
            (SubmitResult.transportError none)).responses = none
        ∧ (handleSubmit { chatReady with responses := some ⟨"n", "l", "g", "h"⟩ }
            (SubmitResult.transportError none)).error
            = some (jsOr none "An error occurred while processing your request"))) :=
  ⟨by decide, by decide, by decide,
    query_failure_atomicity { chatReady with responses := some ⟨"n", "l", "g", "h"⟩ }
      "error" ⟨"", "", "", ""⟩ (some "bad") none (by decide) (by decide) (by decide)⟩

/-- C6: a submit answered `{status:"success", data:{naive:A, local:B,
global_:C, hybrid:D}}` stores all four mode outputs retrievably, leaves the tab
selection untouched, and with the default tab (`"hybrid"`, the `useState`
initial value) the displayed content is `D`. -/
theorem query_success_path (st : ChatState) (a b c d : String)
    (hq : jsTrim st.query ≠ "") (hc : st.selectedContext ≠ none) :
    (handleSubmit st (SubmitResult.response "success" ⟨a, b, c, d⟩ none)).responses
        = some ⟨a, b, c, d⟩
    ∧ queryField ⟨a, b, c, d⟩ "naive" = some a
    ∧ queryField ⟨a, b, c, d⟩ "local" = some b
    ∧ queryField ⟨a, b, c, d⟩ "global_" = some c
    ∧ queryField ⟨a, b, c, d⟩ "hybrid" = some d
    ∧ (handleSubmit st (SubmitResult.response "success" ⟨a, b, c, d⟩ none)).selectedTab
        = st.selectedTab
    ∧ chatInit.selectedTab = "hybrid"
    ∧ (st.selectedTab = "hybrid" →
        displayedContent (handleSubmit st (SubmitResult.response "success" ⟨a, b, c, d⟩ none))
          = some d) := by
  unfold handleSubmit
  rw [if_neg (by simp [hq, hc])]
  refine ⟨rfl, rfl, rfl, rfl, rfl, rfl, rfl, fun h => ?_⟩
  simp [displayedContent, h, queryField]

/-- Closed witness for C6 at concrete mode outputs `"A" "B" "C" "D"`. -/
theorem query_success_path_witness :
    jsTrim (chatReady : ChatState).query ≠ ""
    ∧ (chatReady : ChatState).selectedContext ≠ none
    ∧ ((handleSubmit chatReady (SubmitResult.response "success" ⟨"A", "B", "C", "D"⟩ none)).responses
          = some ⟨"A", "B", "C", "D"⟩
      ∧ queryField ⟨"A", "B", "C", "D"⟩ "naive" = some "A"
      ∧ queryField ⟨"A", "B", "C", "D"⟩ "local" = some "B"
      ∧ queryField ⟨"A", "B", "C", "D"⟩ "global_" = some "C"
      ∧ queryField ⟨"A", "B", "C", "D"⟩ "hybrid" = some "D"
      ∧ (handleSubmit chatReady (SubmitResult.response "success" ⟨"A", "B", "C", "D"⟩ none)).selectedTab
          = chatReady.selectedTab
      ∧ chatInit.selectedTab = "hybrid"
      ∧ (chatReady.selectedTab = "hybrid" →
          displayedContent (handleSubmit chatReady (SubmitResult.response "success" ⟨"A", "B", "C", "D"⟩ none))
            = some "D")) :=
  ⟨by decide, by decide,
    query_success_path chatReady "A" "B" "C" "D" (by decide) (by decide)⟩

/-! ## Visualize page: graph fetch/regenerate and object-URL lifecycle -/

/-- State of the `Visualize` component (Visualize.tsx) together with the
bookkeeping needed to track object-URL lifetimes.  URLs are numbered in
creation order by `nextUrl`; `live` lists the URLs created and not yet revoked.
`cleanupCaptured` is the `graphUrl` value seen by the closure of the currently
registered `useEffect` cleanup: the effect has dependency array
`[selectedContext]`, so its cleanup closure is created at the render in which
the selection changed and reads the `graphUrl` of that render, not the current
one.  `pending` counts in-flight `loadGraph` fetches. -/
structure VisState where
  selectedContext : Option String
  graphUrl : Option Nat
  cleanupCaptured : Option Nat
  pending : Nat
  live : List Nat
  nextUrl : Nat
  mounted : Bool
  deriving DecidableEq

/-- `URL.revokeObjectURL` guarded by `if (graphUrl)` on the captured value:
remove it from the live set, or do nothing when the captured value is null. -/
def revokeCaptured (live : List Nat) : Option Nat → List Nat
  | none => live
  | some u => live.erase u

/-- The externally triggered events of the Visualize component. -/
inductive VisEvent where
  | selectCtx (c : Option String)
  | loadResolve
  | loadFail
  | regenerate
  | unmount
  deriving DecidableEq

/-- One step of the Visualize component.
`selectCtx c` (with `c` different from the current selection, else React bails
out): the previous effect's cleanup runs first — revoking the URL captured by
its closure — then the new effect runs, capturing the current `graphUrl` for
its own cleanup and either starting `loadGraph(false)` (lines 49-54) or, for a
null selection, `setGraphUrl(null)`.
`loadResolve`: `URL.createObjectURL(blob)` mints a fresh URL and
`setGraphUrl(url)` installs it — `loadGraph` never revokes the previous one
(lines 34-36).  `loadFail`: the throw/catch path sets an error and mints
nothing.  `regenerate`: `handleRegenerate` starts `loadGraph(true)` when a
context is selected (lines 22-23, 44-47).  `unmount`: the registered cleanup
runs once, revoking only the URL its closure captured (lines 55-59). -/
def visStep (st : VisState) (e : VisEvent) : VisState :=
  if st.mounted = false then st
  else
    match e with
    | VisEvent.selectCtx c =>
      if c = st.selectedContext then st
      else
        match c with
        | some _ =>
          { st with selectedContext := c
                    live := revokeCaptured st.live st.cleanupCaptured
                    cleanupCaptured := st.graphUrl
                    pending := st.pending + 1 }
        | none =>
          { st with selectedContext := none
                    live := revokeCaptured st.live st.cleanupCaptured
                    cleanupCaptured := st.graphUrl
                    graphUrl := none }
    | VisEvent.loadResolve =>
      if st.pending = 0 then st
      else
        { st with pending := st.pending - 1
                  live := st.live ++ [st.nextUrl]
                  graphUrl := some st.nextUrl
                  nextUrl := st.nextUrl + 1 }
    | VisEvent.loadFail =>
      if st.pending = 0 then st
      else { st with pending := st.pending - 1 }
    | VisEvent.regenerate =>
      match st.selectedContext with
      | none => st
      | some _ => { st with pending := st.pending + 1 }
    | VisEvent.unmount =>
      { st with mounted := false
                live := revokeCaptured st.live st.cleanupCaptured }

/-- The state after mounting: no selection, no URL, and the mount effect's
cleanup closure captured the initial null `graphUrl`. -/
def visInit : VisState :=
  { selectedContext := none, graphUrl := none, cleanupCaptured := none,
    pending := 0, live := [], nextUrl := 0, mounted := true }

/-- C1 (evaluation at the failing input): select a context, let the first load
resolve (URL 0), click Regenerate, let the second load resolve (URL 1) — both
URLs are now live at once, and unmounting revokes neither of them, because the
cleanup registered for the selection render captured the then-null `graphUrl`
and `loadGraph` never revokes the URL it replaces. -/
theorem visualize_resource_leak :
    (([VisEvent.selectCtx (some "A"), VisEvent.loadResolve, VisEvent.regenerate,
        VisEvent.loadResolve].foldl visStep visInit).live = [0, 1])
    ∧ (([VisEvent.selectCtx (some "A"), VisEvent.loadResolve, VisEvent.regenerate,
        VisEvent.loadResolve, VisEvent.unmount].foldl visStep visInit).live = [0, 1])
    ∧ (([VisEvent.selectCtx (some "A"), VisEvent.loadResolve, VisEvent.regenerate,
        VisEvent.loadResolve, VisEvent.unmount].foldl visStep visInit).mounted = false) := by
  decide

/-! ## ContextSelector component (Layout.tsx): context create/delete -/

/-- The `Context` interface of Layout.tsx:
`{ id, name, description?, created_at }`. -/
structure Context where
  id : String
  name : String
  description : Option String
  created_at : String
  deriving DecidableEq

/-- Local state of `ContextSelector` (Layout.tsx lines 54-59). -/
structure SelectorState where
  contexts : List Context
  selectedContext : Option String
  createModalVisible : Bool
  newContextName : String
  newContextDescription : String
  deriving DecidableEq

/-- The `useState` initial values of `ContextSelector`. -/
def selectorInit : SelectorState :=
  { contexts := [], selectedContext := none, createModalVisible := false,
    newContextName := "", newContextDescription := "" }

/-- What one `POST /contexts` round trip can produce: a thrown transport error
(the fetch rejects or the body fails to parse), or a body parsed as JSON.
`handleCreateContext` never reads `response.ok`, so `ok` is recorded here only
so that claims about failing responses can be stated; on a non-2xx response the
parsed body is the backend's error object shoehorned into the `Context` shape. -/
inductive CreateResult where
  | transportError
  | jsonResponse (ok : Bool) (body : Context)
  deriving DecidableEq

/-- `handleCreateContext` (Layout.tsx lines 75-95): returns the next state and
the `console.error` log, if any.  The code awaits `response.json()` and runs
`setContexts([...contexts, newContext])`, closes the modal and clears its
inputs without ever consulting `response.ok`; only a thrown error (transport
failure or unparsable body) reaches the catch, which logs and leaves every
piece of state unchanged. -/
def handleCreateContext (st : SelectorState) (result : CreateResult) :
    SelectorState × Option String :=
  match result with
  | CreateResult.transportError => (st, some "Failed to create context:")
  | CreateResult.jsonResponse _ body =>
    ({ st with contexts := st.contexts ++ [body]
               createModalVisible := false
               newContextName := ""
               newContextDescription := "" }, none)

/-- What one `DELETE /contexts/{id}` round trip can produce: a thrown transport
error, or a response with its ok flag and, for failures, the parsed body's
`detail` field. -/
inductive DeleteResult where
  | transportError
  | response (ok : Bool) (detail : Option String)
  deriving DecidableEq

/-- Observable outcome of `handleDeleteContext`: the next selector state,
whether the network request was issued, the argument of the `onContextChange`
callback if it was called, the `console.error` log if any, and the user-facing
inline alert.  `ContextSelector` declares no message or error state and its
render contains no error display, so no execution path can produce a
user-facing alert: the last field is `none` on every path and records that
fact. -/
structure DeleteOutcome where
  state : SelectorState
  requested : Bool
  notifiedWith : Option (Option String)
  consoleLog : Option String
  inlineAlert : Option String
  deriving DecidableEq

/-- `handleDeleteContext` (Layout.tsx lines 97-120): return early when nothing
is selected, or when the `window.confirm` dialog is declined, issuing no
request and changing nothing.  On an ok response, filter the deleted id out of
the list, clear the selection and call `onContextChange(null)`.  On a non-ok
response, throw `new Error(errorData.detail || 'Failed to delete context')`;
the catch only runs `console.error('Failed to delete context:', error)` — the
list and selection stay as they were and nothing is surfaced in the UI. -/
def handleDeleteContext (st : SelectorState) (confirmed : Bool) (result : DeleteResult) :
    DeleteOutcome :=
  match st.selectedContext with
  | none => ⟨st, false, none, none, none⟩
  | some sel =>
    if confirmed = false then ⟨st, false, none, none, none⟩
    else
      match result with
      | DeleteResult.transportError =>
        ⟨st, true, none, some "Failed to delete context:", none⟩
      | DeleteResult.response ok detail =>
        if ok then
          ⟨{ st with contexts := st.contexts.filter fun c => c.id ≠ sel
                     selectedContext := none },
            true, some none, none, none⟩
        else
          ⟨st, true, none,
            some ("Failed to delete context: " ++ jsOr detail "Failed to delete context"),
            none⟩

/-! ## Dependent pages' reaction to a context change -/

/-- The Chat page passes `setSelectedContext` as the `ContextSelector` callback
(Navigation.tsx line 409) and declares no effect hook watching it, so a
notification only updates the selection field; `responses`, `query`, `error`
and the tab selection all survive untouched. -/
def chatOnContextChange (st : ChatState) (v : Option String) : ChatState :=
  { st with selectedContext := v }

/-- The value of a prompt variable: a string or an array of tags. -/
inductive VarValue where
  | str (s : String)
  | arr (l : List String)
  deriving DecidableEq

/-- The `PromptVariable` interface of Upload.tsx (lines 38-42). -/
structure PromptVariable where
  name : String
  type : String
  currentValue : VarValue
  deriving DecidableEq

/-- Per-context state of the `Upload` page (Upload.tsx lines 58-71), as far as
a context change can touch it. -/
structure UploadPageState where
  text : String
  files : Option (List FileItem)
  variableOptions : List PromptVariable
  tags : List String
  variableValue : String
  selectedContext : Option String
  deriving DecidableEq

/-- The Upload page's only reaction to a context change is the effect
`if (selectedContext) { fetchVariables() }` (Upload.tsx lines 73-77), which has
no else branch: when the selection becomes null nothing runs, so the loaded
variables, the tag buffer, the pending text and the chosen files are all left
as they were. -/
def uploadOnContextCleared (st : UploadPageState) : UploadPageState :=
  { st with selectedContext := none }

/-! ## Concrete fixtures for the context-management claims -/

/-- A sample context. -/
def ctx1 : Context := ⟨"c1", "First", none, "2024-01-01"⟩

/-- A selector whose list holds `ctx1`, which is also selected. -/
def selWithC1 : SelectorState :=
  { selectorInit with contexts := [ctx1], selectedContext := some "c1" }

/-- The parsed JSON body of a failing create response (an error object such as
`{detail: ...}` read through the `Context` interface: every field undefined). -/
def errBody : Context := ⟨"", "", none, ""⟩

/-- A Chat page currently displaying results for context `"c1"`. -/
def chatWithResults : ChatState :=
  { chatReady with selectedContext := some "c1", responses := some ⟨"n", "l", "g", "h"⟩ }

/-- An Upload page with loaded variables, a tag buffer, pending text and chosen
files for context `"c1"`. -/
def uploadDirty : UploadPageState :=
  { text := "pending note", files := some [⟨"a.txt"⟩],
    variableOptions := [⟨"entity_types", "array", VarValue.arr ["person"]⟩],
    tags := ["person"], variableValue := "", selectedContext := some "c1" }

/-- A Visualize page currently displaying URL 0 for context `"A"`. -/
def visShowing : VisState :=
  { selectedContext := some "A", graphUrl := some 0, cleanupCaptured := none,
    pending := 0, live := [0], nextUrl := 1, mounted := true }

/-- C4 counterexample: deleting the selected context `"c1"` succeeds — the
dependents are notified with a null selection — yet the Chat page's stored
query results do not clear to their initial empty state, and the Upload page
keeps its loaded variables, tag buffer, pending text and chosen files. -/
theorem context_deletion_counterexample :
    (handleDeleteContext selWithC1 true (DeleteResult.response true none)).notifiedWith
        = some none
    ∧ (chatOnContextChange chatWithResults none).responses = some ⟨"n", "l", "g", "h"⟩
    ∧ (chatOnContextChange chatWithResults none).responses ≠ none
    ∧ (uploadOnContextCleared uploadDirty).tags ≠ []
    ∧ (uploadOnContextCleared uploadDirty).variableOptions ≠ []
    ∧ (uploadOnContextCleared uploadDirty).text ≠ ""
    ∧ (uploadOnContextCleared uploadDirty).files ≠ none := by
  decide

/-- C4 (amended): a confirmed, successful deletion of the selected context
removes it from the listed set, clears the selection, propagates the null
selection to the page callback, and the Visualize effect clears the displayed
graph URL; but the Chat and Upload pages only have their selection field
cleared — query results, loaded variables, tag buffer, pending text and chosen
files are left unchanged rather than reset. -/
theorem context_deletion_amended (st : SelectorState) (sel : String) (detail : Option String)
    (chat : ChatState) (up : UploadPageState) (vis : VisState)
    (hsel : st.selectedContext = some sel)
    (hm : vis.mounted = true) (hv : vis.selectedContext ≠ none) :
    (handleDeleteContext st true (DeleteResult.response true detail)).state
        = { st with contexts := st.contexts.filter fun c => c.id ≠ sel
                    selectedContext := none }
    ∧ (handleDeleteContext st true (DeleteResult.response true detail)).requested = true
    ∧ (handleDeleteContext st true (DeleteResult.response true detail)).notifiedWith = some none
    ∧ chatOnContextChange chat none = { chat with selectedContext := none }
    ∧ uploadOnContextCleared up = { up with selectedContext := none }
    ∧ (visStep vis (VisEvent.selectCtx none)).graphUrl = none := by
  refine ⟨?_, ?_, ?_, rfl, rfl, ?_⟩
  · unfold handleDeleteContext; rw [hsel]; rfl
  · unfold handleDeleteContext; rw [hsel]; rfl
  · unfold handleDeleteContext; rw [hsel]; rfl
  · unfold visStep
    rw [hm]
    rcases h : vis.selectedContext with _ | s
    · exact absurd h hv
    · rfl

/-- Closed witness for the amended C4 at the concrete fixtures. -/
theorem context_deletion_amended_witness :
    selWithC1.selectedContext = some "c1"
    ∧ visShowing.mounted = true
    ∧ visShowing.selectedContext ≠ none
    ∧ ((handleDeleteContext selWithC1 true (DeleteResult.response true none)).state
          = { selWithC1 with contexts := selWithC1.contexts.filter fun c => c.id ≠ "c1"
                             selectedContext := none }
      ∧ (handleDeleteContext selWithC1 true (DeleteResult.response true none)).requested = true
      ∧ (handleDeleteContext selWithC1 true (DeleteResult.response true none)).notifiedWith
          = some none
      ∧ chatOnContextChange chatWithResults none
          = { chatWithResults with selectedContext := none }
      ∧ uploadOnContextCleared uploadDirty = { uploadDirty with selectedContext := none }
      ∧ (visStep visShowing (VisEvent.selectCtx none)).graphUrl = none) :=
  ⟨by decide, by decide, by decide,
    context_deletion_amended selWithC1 "c1" none chatWithResults uploadDirty visShowing
      (by decide) (by decide) (by decide)⟩

/-- C8 counterexample: a create request answered by a non-success response
(`ok = false`) whose body parses as JSON still mutates the local context list —
the parsed error body is appended — because `handleCreateContext` never checks
`response.ok`.  The claim that a failing create leaves the list unchanged is
false. -/
theorem create_context_counterexample :
    (handleCreateContext selWithC1 (CreateResult.jsonResponse false errBody)).1.contexts
        = [ctx1, errBody]
    ∧ ([ctx1, errBody] : List Context) ≠ selWithC1.contexts := by
  decide

/-- C8 (amended): a transport-level failure (the fetch rejects or the body is
not JSON) leaves the whole selector state unchanged and only logs to the
console; any response whose body parses as JSON — success and failure status
alike — has its parsed body appended to the local list with the modal closed
and its inputs cleared.  The selection is never changed on any path. -/
theorem create_context_amended (st : SelectorState) (ok : Bool) (body : Context) :
    (handleCreateContext st CreateResult.transportError).1 = st
    ∧ (handleCreateContext st CreateResult.transportError).2 = some "Failed to create context:"
    ∧ (handleCreateContext st (CreateResult.jsonResponse ok body)).1.contexts
        = st.contexts ++ [body]
    ∧ (handleCreateContext st (CreateResult.jsonResponse ok body)).1.selectedContext
        = st.selectedContext
    ∧ (handleCreateContext st (CreateResult.jsonResponse ok body)).2 = none :=
  ⟨rfl, rfl, rfl, rfl, rfl⟩

/-- C9 counterexample: a failing delete leaves the list and selection unchanged
(that part of the claim holds), but the backend's message `"db locked"` is not
surfaced to the user: the component has no alert state and renders no error
display, so the message reaches only the console log. -/
theorem delete_failure_not_surfaced :
    (handleDeleteContext selWithC1 true (DeleteResult.response false (some "db locked"))).state
        = selWithC1
    ∧ (handleDeleteContext selWithC1 true
        (DeleteResult.response false (some "db locked"))).inlineAlert = none
    ∧ (handleDeleteContext selWithC1 true
        (DeleteResult.response false (some "db locked"))).consoleLog
        = some "Failed to delete context: db locked" := by
  decide

/-- C9 (amended): on a failing delete — non-ok response or transport error —
the local list and the selection are left unchanged; the backend's `detail`
(with a generic fallback) is embedded in the console log, and no user-facing
inline alert is produced. -/
theorem delete_context_failure_amended (st : SelectorState) (sel : String)
    (detail : Option String) (hsel : st.selectedContext = some sel) :
    (handleDeleteContext st true (DeleteResult.response false detail)).state = st
    ∧ (handleDeleteContext st true (DeleteResult.response false detail)).consoleLog
        = some ("Failed to delete context: " ++ jsOr detail "Failed to delete context")
    ∧ (handleDeleteContext st true (DeleteResult.response false detail)).inlineAlert = none
    ∧ (handleDeleteContext st true DeleteResult.transportError).state = st
    ∧ (handleDeleteContext st true DeleteResult.transportError).consoleLog
        = some "Failed to delete context:"
    ∧ (handleDeleteContext st true DeleteResult.transportError).inlineAlert = none := by
  unfold handleDeleteContext
  rw [hsel]
  exact ⟨rfl, rfl, rfl, rfl, rfl, rfl⟩

/-- Closed witness for the amended C9 with backend detail `"db locked"`. -/
theorem delete_context_failure_amended_witness :
    selWithC1.selectedContext = some "c1"
    ∧ ((handleDeleteContext selWithC1 true
          (DeleteResult.response false (some "db locked"))).state = selWithC1
      ∧ (handleDeleteContext selWithC1 true
          (DeleteResult.response false (some "db locked"))).consoleLog
          = some ("Failed to delete context: "
              ++ jsOr (some "db locked") "Failed to delete context")
      ∧ (handleDeleteContext selWithC1 true
          (DeleteResult.response false (some "db locked"))).inlineAlert = none
      ∧ (handleDeleteContext selWithC1 true DeleteResult.transportError).state = selWithC1
      ∧ (handleDeleteContext selWithC1 true DeleteResult.transportError).consoleLog
          = some "Failed to delete context:"
      ∧ (handleDeleteContext selWithC1 true DeleteResult.transportError).inlineAlert = none) :=
  ⟨by decide,
    delete_context_failure_amended selWithC1 "c1" (some "db locked") (by decide)⟩

/-- C10: when the confirmation dialog is declined, `handleDeleteContext`
returns before the fetch: no request is issued, no notification reaches any
dependent, nothing is logged, and the selector state is exactly as before. -/
theorem declined_confirmation_noop (st : SelectorState) (result : DeleteResult) :
    handleDeleteContext st false result = ⟨st, false, none, none, none⟩ := by
  unfold handleDeleteContext
  rcases h : st.selectedContext with _ | sel <;> rfl
